import Mathlib

/-!
Shallow embedding of the Solana copy-trading bot's wallet-monitoring and
copy-decision pipeline, translated from `app/core/bot_manager.py`,
`app/core/solana_client.py` and `app/models/schemas.py`, together with
proofs about the specification's claims.

Python floats (SOL amounts, timestamps) are modelled as rationals; Python
exceptions are modelled with `Except`; JSON-shaped Python values (raw
transaction records, log notifications) are modelled by an inductive `Json`
type with Python's truthiness, `dict.get`, iteration and indexing semantics.
-/

/-- JSON-shaped Python values appearing in raw transaction records and
log notifications. -/
inductive Json where
  | null : Json
  | bool (b : Bool) : Json
  | num (q : ℚ) : Json
  | str (s : String) : Json
  | arr (items : List Json) : Json
  | obj (fields : List (String × Json)) : Json

/-- Python exception kinds the embedded code can raise internally. -/
inductive PyErr where
  | attributeError : PyErr
  | typeError : PyErr
  | indexError : PyErr
  | validationError : PyErr
deriving DecidableEq

/-- Python truthiness of a JSON-shaped value. -/
def Json.truthy : Json → Bool
  | .null => false
  | .bool b => b
  | .num q => decide (q ≠ 0)
  | .str s => decide (s ≠ "")
  | .arr items => !items.isEmpty
  | .obj fields => !fields.isEmpty

/-- Python d.get(key, default): succeeds on dicts, raises AttributeError on
every other value (which lacks a .get method). -/
def Json.get : Json → String → Json → Except PyErr Json
  | .obj fields, key, dflt => .ok ((fields.lookup key).getD dflt)
  | _, _, _ => .error .attributeError

/-- Python iteration (for x in v): lists yield their items, strings yield
their characters, dicts yield their keys; other values raise TypeError. -/
def Json.iter : Json → Except PyErr (List Json)
  | .arr items => .ok items
  | .str s => .ok (s.toList.map fun c => .str (String.mk [c]))
  | .obj fields => .ok (fields.map fun kv => .str kv.1)
  | _ => .error .typeError

/-- Python v[0]: first element of a list or string; IndexError when empty,
TypeError on non-indexable values. -/
def Json.index0 : Json → Except PyErr Json
  | .arr (x :: _) => .ok x
  | .arr [] => .error .indexError
  | .str s =>
    match s.toList with
    | c :: _ => .ok (.str (String.mk [c]))
    | [] => .error .indexError
  | _ => .error .typeError

/-- Python x == 0 for a JSON-shaped value: 0, 0.0 and False compare equal
to the integer 0; everything else does not. -/
def Json.eqZero : Json → Bool
  | .num q => decide (q = 0)
  | .bool b => !b
  | _ => false

/-- datetime.fromtimestamp: accepts numbers (bool is an int subclass in
Python); anything else raises TypeError. Timestamps stay rationals. -/
def pyFromTimestamp : Json → Except PyErr ℚ
  | .num q => .ok q
  | .bool b => .ok (if b then 1 else 0)
  | _ => .error .typeError

/-- pydantic validation of a `str` field: a non-string value raises a
ValidationError when the model is constructed. -/
def pyStr : Json → Except PyErr String
  | .str s => .ok s
  | _ => .error .validationError

/-- TransactionType enumeration (`app/models/schemas.py`). -/
inductive TransactionType where
  | sol_transfer : TransactionType
  | spl_transfer : TransactionType
  | raydium_swap : TransactionType
  | program_interaction : TransactionType
  | unknown : TransactionType
deriving DecidableEq

/-- WalletConfig model (`app/models/schemas.py`): per-wallet policy. -/
structure WalletConfig where
  address : String
  enabled : Bool := true
  copy_sol : Bool := true
  copy_spl : Bool := true
  copy_swaps : Bool := true
  max_amount : Option ℚ := none

/-- TransactionInfo model (`app/models/schemas.py`): a classified
transaction. -/
structure TransactionInfo where
  signature : String
  block_time : Option ℚ := none
  transaction_type : TransactionType
  source_wallet : String
  amount : Option ℚ := none
  token_mint : Option String := none
  success : Bool
  error_message : Option String := none
  raw_data : Json := .obj []

/-- CopyTradingStats model (`app/models/schemas.py`). last_activity only
records whether the pipeline ever wrote a timestamp. -/
structure CopyTradingStats where
  total_transactions_copied : ℕ := 0
  successful_copies : ℕ := 0
  failed_copies : ℕ := 0
  total_volume_copied : ℚ := 0
  sol_transfers_copied : ℕ := 0
  spl_transfers_copied : ℕ := 0
  swaps_copied : ℕ := 0
  last_activity : Option Unit := none

/-- The BotManager state mutated by the transaction pipeline
(`app/core/bot_manager.py`): the bounded history and the statistics.
The executions field instruments the calls the pipeline makes to
_copy_transaction, recording the signature of each transaction handed
to it (the source only logs these calls). -/
structure BotState where
  transaction_history : List TransactionInfo := []
  stats : CopyTradingStats := {}
  executions : List String := []

/-- BotManager.max_history_size (`app/core/bot_manager.py` line 35). -/
def max_history_size : ℕ := 1000

/-- A fresh BotManager's pipeline state: empty history, zeroed stats. -/
def initialBotState : BotState := {}

/-- BotManager._should_copy_transaction (`app/core/bot_manager.py` lines
180-197). min_transaction_amount is the global floor read from
settings.min_transaction_amount. Python truthiness is preserved: the
amount checks run only when the amount is a nonzero number, and the
ceiling check only when max_amount is a nonzero number. -/
def should_copy_transaction (transaction_info : TransactionInfo)
    (config : WalletConfig) (min_transaction_amount : ℚ) : Bool :=
  if transaction_info.transaction_type = .sol_transfer ∧ config.copy_sol = false then false
  else if transaction_info.transaction_type = .spl_transfer ∧ config.copy_spl = false then false
  else if transaction_info.transaction_type = .raydium_swap ∧ config.copy_swaps = false then false
  else
    match transaction_info.amount with
    | none => true
    | some a =>
      if a = 0 then true
      else if (match config.max_amount with
               | some m => decide (m ≠ 0) && decide (a > m)
               | none => false) then false
      else if a < min_transaction_amount then false
      else true

/-- The first three checks of _should_copy_transaction (the kind-gate)
pass: no enabled-kind toggle rejects the transaction. -/
def kind_gate_passes (transaction_info : TransactionInfo)
    (config : WalletConfig) : Bool :=
  !(decide (transaction_info.transaction_type = .sol_transfer ∧ config.copy_sol = false)) &&
  !(decide (transaction_info.transaction_type = .spl_transfer ∧ config.copy_spl = false)) &&
  !(decide (transaction_info.transaction_type = .raydium_swap ∧ config.copy_swaps = false))

/-- BotManager._copy_transaction (`app/core/bot_manager.py` lines 199-214)
composed with the strategies _copy_sol_transfer, _copy_spl_transfer and
_copy_raydium_swap (lines 216-250), whose try-bodies only log and return
True; unsupported transaction types log a warning and return False. -/
def copy_transaction (transaction_info : TransactionInfo) : Bool :=
  match transaction_info.transaction_type with
  | .sol_transfer => true
  | .spl_transfer => true
  | .raydium_swap => true
  | _ => false

/-- BotManager._process_transaction (`app/core/bot_manager.py` lines
140-178): append to the bounded history (evicting the oldest element on
overflow), evaluate copy-eligibility, copy, and update the statistics. -/
def process_transaction (state : BotState) (transaction_info : TransactionInfo)
    (config : WalletConfig) (min_transaction_amount : ℚ) : BotState :=
  let history0 := state.transaction_history ++ [transaction_info]
  let history := if history0.length > max_history_size then history0.tail else history0
  let state1 : BotState := { state with transaction_history := history }
  if should_copy_transaction transaction_info config min_transaction_amount = false then state1
  else
    let success := copy_transaction transaction_info
    let state2 : BotState :=
      { state1 with executions := state1.executions ++ [transaction_info.signature] }
    let s0 := state2.stats
    let s1 := { s0 with total_transactions_copied := s0.total_transactions_copied + 1 }
    let s2 :=
      if success then
        let sA := { s1 with successful_copies := s1.successful_copies + 1 }
        let sB :=
          match transaction_info.amount with
          | some a =>
            if a ≠ 0 then { sA with total_volume_copied := sA.total_volume_copied + a } else sA
          | none => sA
        match transaction_info.transaction_type with
        | .sol_transfer => { sB with sol_transfers_copied := sB.sol_transfers_copied + 1 }
        | .spl_transfer => { sB with spl_transfers_copied := sB.spl_transfers_copied + 1 }
        | .raydium_swap => { sB with swaps_copied := sB.swaps_copied + 1 }
        | _ => sB
      else { s1 with failed_copies := s1.failed_copies + 1 }
    { state2 with stats := { s2 with last_activity := some () } }

/-- Sequential runs of _process_transaction from a state (the reachable
states of the statistics and history). -/
def process_transactions (min_transaction_amount : ℚ) (state : BotState) :
    List (TransactionInfo × WalletConfig) → BotState
  | [] => state
  | (ti, cfg) :: rest =>
    process_transactions min_transaction_amount
      (process_transaction state ti cfg min_transaction_amount) rest

/-- SolanaClient._is_sol_transfer's loop body (`app/core/solana_client.py`
lines 275-280): scan the instructions for a programIdIndex equal to 0,
returning on the first match and raising where Python would. -/
def is_sol_transfer_loop : List Json → Except PyErr Bool
  | [] => .ok false
  | instruction :: rest => do
    let p ← instruction.get "programIdIndex" .null
    if p.eqZero then pure true else is_sol_transfer_loop rest

/-- SolanaClient._is_sol_transfer (`app/core/solana_client.py` lines
275-280), including the iteration over the instructions value. -/
def is_sol_transfer (instructions : Json) : Except PyErr Bool := do
  let items ← instructions.iter
  is_sol_transfer_loop items

/-- SolanaClient._is_spl_transfer (lines 282-285): placeholder, False. -/
def is_spl_transfer (_instructions : Json) : Except PyErr Bool := .ok false

/-- SolanaClient._is_raydium_swap (lines 287-290): placeholder, False. -/
def is_raydium_swap (_instructions : Json) : Except PyErr Bool := .ok false

/-- SolanaClient._extract_sol_amount (lines 292-295): placeholder, None. -/
def extract_sol_amount (_instructions : Json) (_source_wallet : String) :
    Except PyErr (Option ℚ) := .ok none

/-- SolanaClient._parse_transaction's try-body (`app/core/solana_client.py`
lines 231-269). Returns .error when the Python body would raise (the
exception is then caught by the except clause, see parse_transaction),
.ok none when the record is skipped as failed on-chain, and
.ok (some info) for a classified record. -/
def parse_transaction_body (tx_data : Json) (source_wallet : String) :
    Except PyErr (Option TransactionInfo) := do
  let meta ← tx_data.get "meta" (.obj [])
  let errVal ← meta.get "err" .null
  if errVal.truthy then return none
  let transaction ← tx_data.get "transaction" (.obj [])
  let message ← transaction.get "message" (.obj [])
  let instructions ← message.get "instructions" (.arr [])
  let cls ← (do
    let isSol ← is_sol_transfer instructions
    if isSol then do
      let a ← extract_sol_amount instructions source_wallet
      pure ((TransactionType.sol_transfer, a, none) :
        TransactionType × Option ℚ × Option String)
    else do
      let isSpl ← is_spl_transfer instructions
      if isSpl then
        pure ((TransactionType.spl_transfer, none, none) :
          TransactionType × Option ℚ × Option String)
      else do
        let isRay ← is_raydium_swap instructions
        if isRay then
          pure ((TransactionType.raydium_swap, none, none) :
            TransactionType × Option ℚ × Option String)
        else
          pure ((TransactionType.unknown, none, none) :
            TransactionType × Option ℚ × Option String))
  let transaction2 ← tx_data.get "transaction" (.obj [])
  let sigs ← transaction2.get "signatures" (.arr [.str ""])
  let sigJ ← sigs.index0
  let signature ← pyStr sigJ
  let btCond ← tx_data.get "blockTime" .null
  let block_time ←
    if btCond.truthy then do
      let btVal ← tx_data.get "blockTime" (.num 0)
      let q ← pyFromTimestamp btVal
      pure (some q)
    else
      pure (none : Option ℚ)
  return some {
    signature := signature,
    block_time := block_time,
    transaction_type := cls.1,
    source_wallet := source_wallet,
    amount := cls.2.1,
    token_mint := cls.2.2,
    success := true,
    error_message := none,
    raw_data := tx_data }

/-- SolanaClient._parse_transaction (`app/core/solana_client.py` lines
229-273): the except clause turns every internal exception into None, so
the record is dropped rather than classified. -/
def parse_transaction (tx_data : Json) (source_wallet : String) :
    Option TransactionInfo :=
  match parse_transaction_body tx_data source_wallet with
  | .ok v => v
  | .error _ => none

/-- SolanaClient._process_log_notification (`app/core/solana_client.py`
lines 209-227) composed with the BotManager callback (lines 127-135).
get_transaction is modelled as an environment get_tx from signature values
to optional resolved records; a falsy signature, an unresolved or falsy
record, a dropped parse, or an internal exception leaves the state
unchanged (the except clause only logs). -/
def process_log_notification (wallet_address : String) (log_data : Json)
    (get_tx : Json → Option Json) (config : WalletConfig)
    (min_transaction_amount : ℚ) (state : BotState) : BotState :=
  match log_data.get "signature" .null with
  | .error _ => state
  | .ok sigJ =>
    if sigJ.truthy = false then state
    else
      match get_tx sigJ with
      | none => state
      | some tx_data =>
        if tx_data.truthy = false then state
        else
          match parse_transaction tx_data wallet_address with
          | none => state
          | some transaction_info =>
            process_transaction state transaction_info config min_transaction_amount

/-- Sequential processing of a list of delivered notifications for one
wallet (the monitor loop of `app/core/solana_client.py` lines 182-198
drives _process_log_notification once per delivered message). -/
def process_notifications (wallet_address : String) (get_tx : Json → Option Json)
    (config : WalletConfig) (min_transaction_amount : ℚ)
    (state : BotState) : List Json → BotState
  | [] => state
  | log_data :: rest =>
    process_notifications wallet_address get_tx config min_transaction_amount
      (process_log_notification wallet_address log_data get_tx config
        min_transaction_amount state) rest

/-- BotManager.get_transaction_history (`app/core/bot_manager.py` lines
299-303), with Python slice semantics for the clamped indices:
h[a:b] for 0 <= a, 0 <= b is (h.take b).drop a. -/
def get_transaction_history (transaction_history : List TransactionInfo)
    (limit offset : ℤ) : List TransactionInfo :=
  let start : ℤ := (transaction_history.length : ℤ) - offset - limit
  let stop : ℤ := (transaction_history.length : ℤ) - offset
  (transaction_history.take (max 0 stop).toNat).drop (max 0 start).toNat

/-! Helper lemmas about the policy evaluator. -/

/-- With the kind-gate passing, _should_copy_transaction reduces to the
amount rules. -/
theorem should_copy_of_gate (ti : TransactionInfo) (config : WalletConfig)
    (fl : ℚ) (hg : kind_gate_passes ti config = true) :
    should_copy_transaction ti config fl =
      (match ti.amount with
       | none => true
       | some a =>
         if a = 0 then true
         else if (match config.max_amount with
                  | some m => decide (m ≠ 0) && decide (a > m)
                  | none => false) then false
         else if a < fl then false
         else true) := by
  have h := hg
  simp only [kind_gate_passes, Bool.and_eq_true, Bool.not_eq_true',
    decide_eq_false_iff_not] at h
  obtain ⟨⟨h1, h2⟩, h3⟩ := h
  unfold should_copy_transaction
  rw [if_neg h1, if_neg h2, if_neg h3]

/-- An accepted transaction passed the kind-gate. -/
theorem gate_of_should_copy (ti : TransactionInfo) (config : WalletConfig)
    (fl : ℚ) (h : should_copy_transaction ti config fl = true) :
    kind_gate_passes ti config = true := by
  unfold should_copy_transaction at h
  split_ifs at h with h1 h2 h3
  simp [kind_gate_passes, h1, h2, h3]

/-- With the kind-gate passing, a present amount and a set ceiling,
_should_copy_transaction is the bare amount-rule chain. -/
theorem should_copy_eval_some (ti : TransactionInfo) (config : WalletConfig)
    (fl a m : ℚ) (ha : ti.amount = some a) (hm : config.max_amount = some m)
    (hg : kind_gate_passes ti config = true) :
    should_copy_transaction ti config fl =
      (if a = 0 then true
       else if decide (m ≠ 0) && decide (a > m) then false
       else if a < fl then false
       else true) := by
  rw [should_copy_of_gate ti config fl hg, ha, hm]

/-- With the kind-gate passing, a present amount and no ceiling set,
_should_copy_transaction is the zero-check plus the floor rule. -/
theorem should_copy_eval_none (ti : TransactionInfo) (config : WalletConfig)
    (fl a : ℚ) (ha : ti.amount = some a) (hm : config.max_amount = none)
    (hg : kind_gate_passes ti config = true) :
    should_copy_transaction ti config fl =
      (if a = 0 then true
       else if a < fl then false
       else true) := by
  rw [should_copy_of_gate ti config fl hg, ha, hm]
  rfl

/-! Claim theorems for the copy-policy evaluator. -/

def txUnknownC1 : TransactionInfo :=
  { signature := "sigU", transaction_type := .unknown, source_wallet := "w",
    success := true }

def cfgOpen : WalletConfig := { address := "w" }

/-- Claim C1, counterexample: a transaction of kind unknown with absent
amount, under a fully default policy and floor 0.001, is accepted by
_should_copy_transaction, although the claim states these kinds always
yield false: the function has no gate for unknown or program-interaction. -/
theorem C1_counterexample :
    should_copy_transaction txUnknownC1 cfgOpen (1/1000) = true := by
  decide

/-- Claim C1, amended: _should_copy_transaction applies no kind-gate to
unknown and program-interaction transactions — with an absent amount it
returns true for them for every policy and floor — but _copy_transaction
returns false for these two kinds, so no copy of them ever succeeds. -/
theorem C1_amended (ti : TransactionInfo) (config : WalletConfig) (fl : ℚ)
    (hk : ti.transaction_type = .unknown ∨
      ti.transaction_type = .program_interaction)
    (ha : ti.amount = none) :
    copy_transaction ti = false ∧ should_copy_transaction ti config fl = true := by
  rcases hk with h | h <;>
    simp [copy_transaction, should_copy_transaction, h, ha]

/-- Witness for C1_amended at a concrete unknown transaction. -/
theorem C1_amended_witness :
    copy_transaction txUnknownC1 = false ∧
      should_copy_transaction txUnknownC1 cfgOpen (1/1000) = true :=
  C1_amended txUnknownC1 cfgOpen (1/1000) (Or.inl rfl) rfl

def txZeroC3 : TransactionInfo :=
  { signature := "s0", transaction_type := .sol_transfer, source_wallet := "w",
    amount := some 0, success := true }

/-- Claim C3, counterexample: amount 0 is present (not None) and lies below
the floor 0.001 with the gate open, yet _should_copy_transaction returns
true: Python truthiness treats a zero amount as absent and skips both
amount rules. -/
theorem C3_counterexample :
    should_copy_transaction txZeroC3 cfgOpen (1/1000) = true ∧
      (0 : ℚ) < 1/1000 := by
  constructor
  · decide
  · norm_num

/-- Claim C3, amended: for a present nonzero amount with the kind-gate
passing, the transaction is rejected when a set nonzero max_amount ceiling
is exceeded or when the amount is below the global floor (a zero amount,
like a zero max_amount, is treated as absent/unset by the truthiness
checks); in particular amount 0.0005 against floor 0.001 is ineligible. -/
theorem C3_amended (ti : TransactionInfo) (config : WalletConfig)
    (fl a m : ℚ) (ha : ti.amount = some a) (ha0 : a ≠ 0)
    (hg : kind_gate_passes ti config = true)
    (hr : (config.max_amount = some m ∧ m ≠ 0 ∧ m < a) ∨ a < fl) :
    should_copy_transaction ti config fl = false := by
  rcases hr with ⟨hm, hm0, hlt⟩ | hfl
  · rw [should_copy_eval_some ti config fl a m ha hm hg, if_neg ha0]
    simp [hm0, hlt]
  · rcases hmo : config.max_amount with _ | m2
    · rw [should_copy_eval_none ti config fl a ha hmo hg, if_neg ha0, if_pos hfl]
    · rw [should_copy_eval_some ti config fl a m2 ha hmo hg, if_neg ha0]
      by_cases hc : (decide (m2 ≠ 0) && decide (a > m2)) = true
      · rw [if_pos hc]
      · rw [if_neg hc, if_pos hfl]

def txFloorC3 : TransactionInfo :=
  { signature := "s3", transaction_type := .sol_transfer, source_wallet := "w",
    amount := some (1/2000), success := true }

/-- Witness for C3_amended: the spec's floor scenario, amount 0.0005 with
floor 0.001 and an open gate, is rejected. -/
theorem C3_amended_witness :
    should_copy_transaction txFloorC3 cfgOpen (1/1000) = false :=
  C3_amended txFloorC3 cfgOpen (1/1000) (1/2000) 0 rfl (by norm_num) (by decide)
    (Or.inr (by norm_num))

def txOneC4 : TransactionInfo :=
  { signature := "s4", transaction_type := .sol_transfer, source_wallet := "w",
    amount := some 1, success := true }

/-- Claim C4, counterexample: ceilings c1 = 1/2 >= c2 = 0 and amount 1: the
transaction is eligible under the smaller ceiling 0 (a zero ceiling is
falsy and disables the check) but ineligible under the larger ceiling 1/2,
so eligibility is not antitone over all pairs of ceiling values. -/
theorem C4_counterexample :
    (0 : ℚ) ≤ 1/2 ∧
    should_copy_transaction txOneC4 { address := "w", max_amount := some 0 }
      (1/1000) = true ∧
    should_copy_transaction txOneC4 { address := "w", max_amount := some (1/2) }
      (1/1000) = false := by
  refine ⟨by norm_num, ?_, ?_⟩ <;> norm_num [should_copy_transaction, txOneC4]

/-- Claim C4, amended: eligibility is antitone across positive ceilings:
for ceilings c1 >= c2 > 0 and a fixed transaction with a present amount,
eligibility under ceiling c2 implies eligibility under ceiling c1. -/
theorem C4_amended (ti : TransactionInfo) (config : WalletConfig)
    (fl a c1 c2 : ℚ) (ha : ti.amount = some a) (hc2 : 0 < c2) (hcc : c2 ≤ c1)
    (h2 : should_copy_transaction ti { config with max_amount := some c2 } fl
      = true) :
    should_copy_transaction ti { config with max_amount := some c1 } fl
      = true := by
  have hg2 : kind_gate_passes ti { config with max_amount := some c2 } = true :=
    gate_of_should_copy _ _ _ h2
  have hg1 : kind_gate_passes ti { config with max_amount := some c1 } = true := by
    simpa [kind_gate_passes] using hg2
  rw [should_copy_eval_some ti _ fl a c2 ha rfl hg2] at h2
  rw [should_copy_eval_some ti _ fl a c1 ha rfl hg1]
  by_cases h0 : a = 0
  · rw [if_pos h0]
  · rw [if_neg h0] at h2 ⊢
    by_cases hca : a > c2
    · rw [if_pos (show (decide (c2 ≠ 0) && decide (a > c2)) = true by
        simp [hc2.ne', hca])] at h2
      exact absurd h2 (by decide)
    · have hc1a : ¬ a > c1 := fun hgt => hca (lt_of_le_of_lt hcc hgt)
      rw [if_neg (show ¬ (decide (c2 ≠ 0) && decide (a > c2)) = true by
        simp [hca])] at h2
      rw [if_neg (show ¬ (decide (c1 ≠ 0) && decide (a > c1)) = true by
        simp [hc1a])]
      by_cases hfl : a < fl
      · rw [if_pos hfl] at h2
        exact absurd h2 (by decide)
      · rw [if_neg hfl]

def txQuarterC4 : TransactionInfo :=
  { signature := "s44", transaction_type := .sol_transfer, source_wallet := "w",
    amount := some (1/4), success := true }

/-- Witness for C4_amended with ceilings 1 >= 1/2 > 0 and amount 1/4. -/
theorem C4_amended_witness :
    should_copy_transaction txQuarterC4 { address := "w", max_amount := some 1 }
      (1/1000) = true :=
  C4_amended txQuarterC4 { address := "w" } (1/1000) (1/4) 1 (1/2) rfl
    (by norm_num) (by norm_num) (by norm_num [should_copy_transaction, txQuarterC4])

/-- Claim C5: a transaction with absent amount that passes the kind-gate is
eligible regardless of the configured ceiling and floor (fail-open). -/
theorem C5_absent_amount_fail_open (ti : TransactionInfo) (config : WalletConfig)
    (fl : ℚ) (ha : ti.amount = none) (hg : kind_gate_passes ti config = true) :
    should_copy_transaction ti config fl = true := by
  rw [should_copy_of_gate ti config fl hg, ha]

def txNoneC5 : TransactionInfo :=
  { signature := "s5", transaction_type := .sol_transfer, source_wallet := "w",
    amount := none, success := true }

def cfgCeilC5 : WalletConfig := { address := "w", max_amount := some (1/2) }

/-- Witness for C5 at a concrete native transfer with extraction failure,
a configured ceiling and the default floor. -/
theorem C5_witness :
    should_copy_transaction txNoneC5 cfgCeilC5 (1/1000) = true :=
  C5_absent_amount_fail_open txNoneC5 cfgCeilC5 (1/1000) rfl (by decide)

/-! Claim theorems for the classifier and the notification pipeline. -/

/-- Claim C7: a record marked failed on-chain (truthy meta.err) is discarded
before classification: _parse_transaction returns None, and any delivered
notification resolving (or failing to resolve) to such a record leaves the
pipeline state — history, statistics, execution log — unchanged. -/
theorem C7_failed_onchain_discarded (tx_data metaJ errJ log_data : Json)
    (w wallet : String) (get_tx : Json → Option Json) (config : WalletConfig)
    (fl : ℚ) (state : BotState)
    (hm : tx_data.get "meta" (.obj []) = .ok metaJ)
    (he : metaJ.get "err" .null = .ok errJ)
    (ht : errJ.truthy = true)
    (hg : ∀ sig, get_tx sig = none ∨ get_tx sig = some tx_data) :
    parse_transaction tx_data w = none ∧
    process_log_notification wallet log_data get_tx config fl state = state := by
  have hp : ∀ w2, parse_transaction tx_data w2 = none := by
    intro w2
    unfold parse_transaction parse_transaction_body
    simp [hm, he, ht, Bind.bind, Except.bind, Pure.pure, Except.pure]
  refine ⟨hp w, ?_⟩
  cases hsig : log_data.get "signature" .null with
  | error e => simp [process_log_notification, hsig]
  | ok sigJ =>
    by_cases htr : sigJ.truthy = false
    · simp [process_log_notification, hsig, htr]
    · rcases hg sigJ with hnone | hsome
      · simp [process_log_notification, hsig, htr, hnone]
      · by_cases htx : tx_data.truthy = false
        · simp [process_log_notification, hsig, htr, hsome, htx]
        · simp [process_log_notification, hsig, htr, hsome, htx, hp]

def failedRecordC7 : Json := .obj [("meta", .obj [("err", .bool true)])]

def logC7 : Json := .obj [("signature", .str "sigF")]

/-- Witness for C7 at a concrete failed record: the environment resolves
every signature to the failed record, and processing changes nothing. -/
theorem C7_witness :
    parse_transaction failedRecordC7 "w" = none ∧
    process_log_notification "w" logC7 (fun _ => some failedRecordC7) cfgOpen
      (1/1000) initialBotState = initialBotState :=
  C7_failed_onchain_discarded failedRecordC7 (.obj [("err", .bool true)])
    (.bool true) logC7 "w" "w" (fun _ => some failedRecordC7) cfgOpen (1/1000)
    initialBotState rfl rfl rfl (fun _ => Or.inr rfl)

def dupNotification : Json := .obj [("signature", .str "sig1")]

def dupRecord : Json :=
  .obj [("transaction", .obj [
    ("message", .obj [("instructions", .arr [.obj [("programIdIndex", .num 0)]])]),
    ("signatures", .arr [.str "sig1"])])]

/-- Claim C2, failing run: the same signature delivered twice (a reconnect
replay) is processed twice — two history entries carrying signature sig1
are appended and _copy_transaction is invoked twice, because the pipeline
performs no deduplication by signature. -/
theorem C2_duplicate_notification_double_copy :
    (process_notifications "w" (fun _ => some dupRecord) cfgOpen (1/1000)
        initialBotState [dupNotification, dupNotification]).executions
      = ["sig1", "sig1"] ∧
    (process_notifications "w" (fun _ => some dupRecord) cfgOpen (1/1000)
        initialBotState [dupNotification, dupNotification]).transaction_history.map
          (fun ti => ti.signature)
      = ["sig1", "sig1"] ∧
    (process_notifications "w" (fun _ => some dupRecord) cfgOpen (1/1000)
        initialBotState [dupNotification, dupNotification]).stats.total_transactions_copied
      = 2 :=
  ⟨rfl, rfl, rfl⟩

def malformedRecordC6 : Json :=
  .obj [("transaction", .obj [
    ("message", .obj [("instructions", .num 5)]),
    ("signatures", .arr [.str "sigM"])])]

/-- Claim C6, counterexample: a record whose instructions value is not
iterable raises TypeError inside the try of _parse_transaction; the except
clause returns None, so this malformed record is dropped — no
ClassifiedTransaction of kind unknown is produced for it. -/
theorem C6_counterexample :
    parse_transaction malformedRecordC6 "w" = none ∧
    parse_transaction_body malformedRecordC6 "w" = .error .typeError :=
  ⟨rfl, rfl⟩

/-- A raw record holding the given instruction objects and one signature
string, with no meta and no blockTime: the well-formed unrecognized shape. -/
def mkRecord (instrs : List (List (String × Json))) (sig : String) : Json :=
  .obj [("transaction", .obj [
    ("message", .obj [("instructions", .arr (instrs.map Json.obj))]),
    ("signatures", .arr [.str sig])])]

/-- The _is_sol_transfer scan over instruction objects none of which has a
programIdIndex equal to 0 returns False without raising. -/
theorem is_sol_transfer_loop_no_match (l : List (List (String × Json)))
    (hno : ∀ kvs ∈ l,
      ((kvs.lookup "programIdIndex").getD Json.null).eqZero = false) :
    is_sol_transfer_loop (l.map Json.obj) = .ok false := by
  induction l with
  | nil => rfl
  | cons kvs rest ih =>
    have h0 := hno kvs (by simp)
    have hr : ∀ kvs2 ∈ rest,
        ((kvs2.lookup "programIdIndex").getD Json.null).eqZero = false :=
      fun kvs2 hmem => hno kvs2 (by simp [hmem])
    simp [is_sol_transfer_loop, Json.get, Bind.bind, Except.bind, h0, ih hr]

/-- Claim C6, amended: _parse_transaction never propagates an exception —
every internal error is caught by the except clause and yields None, that
is, the record is dropped — and a well-formed record whose instruction
objects match no recognized program is classified as unknown with amount
None rather than dropped. -/
theorem C6_amended (d : Json) (e : PyErr) (w sig : String)
    (instrs : List (List (String × Json)))
    (he : parse_transaction_body d w = .error e)
    (hno : ∀ kvs ∈ instrs,
      ((kvs.lookup "programIdIndex").getD Json.null).eqZero = false) :
    parse_transaction d w = none ∧
    parse_transaction (mkRecord instrs sig) w =
      some { signature := sig, block_time := none,
             transaction_type := .unknown, source_wallet := w,
             amount := none, token_mint := none, success := true,
             error_message := none, raw_data := mkRecord instrs sig } := by
  constructor
  · unfold parse_transaction
    rw [he]
  · have hloop := is_sol_transfer_loop_no_match instrs hno
    unfold parse_transaction parse_transaction_body
    simp [mkRecord, Json.get, Json.iter, is_sol_transfer, is_spl_transfer,
      is_raydium_swap, extract_sol_amount, Json.index0, pyStr, Json.truthy,
      hloop, Bind.bind, Except.bind, Pure.pure, Except.pure, List.lookup,
      Option.getD]

/-- Witness for C6_amended: the malformed record is dropped, and a record
with one unrecognized instruction object is classified unknown. -/
theorem C6_amended_witness :
    parse_transaction malformedRecordC6 "w" = none ∧
    parse_transaction (mkRecord [[("programIdIndex", Json.num 7)]] "sigW") "w" =
      some { signature := "sigW", block_time := none,
             transaction_type := .unknown, source_wallet := "w",
             amount := none, token_mint := none, success := true,
             error_message := none,
             raw_data := mkRecord [[("programIdIndex", Json.num 7)]] "sigW" } :=
  C6_amended malformedRecordC6 .typeError "w" "sigW"
    [[("programIdIndex", Json.num 7)]] rfl (by decide)

/-! Claim theorems for the bounded history and the statistics. -/

/-- The history update performed at the top of _process_transaction:
append, then pop the oldest element when the capacity is exceeded. -/
def hist_step (h : List TransactionInfo) (ti : TransactionInfo) :
    List TransactionInfo :=
  if (h ++ [ti]).length > max_history_size then (h ++ [ti]).tail else h ++ [ti]

/-- _process_transaction updates the history exactly by hist_step,
independently of eligibility and statistics. -/
theorem process_transaction_history (state : BotState) (ti : TransactionInfo)
    (config : WalletConfig) (fl : ℚ) :
    (process_transaction state ti config fl).transaction_history =
      hist_step state.transaction_history ti := by
  simp only [process_transaction, hist_step]
  split <;> rfl

/-- The history after a run of the pipeline is the hist_step fold over the
arriving transactions. -/
theorem process_transactions_history (l : List (TransactionInfo × WalletConfig))
    (fl : ℚ) (state : BotState) :
    (process_transactions fl state l).transaction_history =
      List.foldl hist_step state.transaction_history (l.map Prod.fst) := by
  induction l generalizing state with
  | nil => rfl
  | cons p rest ih =>
    cases p with
    | mk ti cfg =>
      simp only [process_transactions, List.map_cons, List.foldl_cons, ih,
        process_transaction_history]

/-- Folding hist_step from the empty history keeps exactly the most recent
max_history_size elements in arrival order. -/
theorem hist_foldl_eq_drop (l : List TransactionInfo) :
    List.foldl hist_step [] l = l.drop (l.length - max_history_size) := by
  have hpos : 0 < max_history_size := by norm_num [max_history_size]
  induction l using List.reverseRecOn with
  | nil => rfl
  | append_singleton xs x ih =>
    rw [List.foldl_append, List.foldl_cons, List.foldl_nil, ih]
    have hxlen : (xs ++ [x]).length = xs.length + 1 := by simp
    rw [hxlen]
    unfold hist_step
    have hdlen : (List.drop (xs.length - max_history_size) xs).length
        = xs.length - (xs.length - max_history_size) := by simp
    by_cases hn : xs.length < max_history_size
    · have e0 : xs.length - max_history_size = 0 := by omega
      have e1 : xs.length + 1 - max_history_size = 0 := by omega
      rw [e0, List.drop_zero, e1, List.drop_zero]
      rw [if_neg (by simp; omega)]
    · rw [if_pos (by simp; omega)]
      rw [← List.drop_one, List.drop_append_eq_append_drop, hdlen]
      have e2 : 1 - (xs.length - (xs.length - max_history_size)) = 0 := by omega
      rw [e2, List.drop_zero, List.drop_drop, List.drop_append_eq_append_drop]
      have e3 : xs.length + 1 - max_history_size - xs.length = 0 := by omega
      rw [e3, List.drop_zero]
      have e4 : xs.length - max_history_size + 1
          = xs.length + 1 - max_history_size := by omega
      rw [e4]

/-- Claim C8: after processing more than max_history_size (1000)
transactions from a fresh state, the history is exactly the most recent
1000 transactions in arrival order, and after any prefix of the processing
the history length never exceeds the capacity. -/
theorem C8_history_bound (l p : List (TransactionInfo × WalletConfig)) (fl : ℚ)
    (hl : max_history_size < l.length) (_hp : p <+: l) :
    (process_transactions fl initialBotState l).transaction_history
        = (l.map Prod.fst).drop (l.length - max_history_size) ∧
    (process_transactions fl initialBotState l).transaction_history.length
        = max_history_size ∧
    (process_transactions fl initialBotState p).transaction_history.length
        ≤ max_history_size := by
  have hchar : ∀ q : List (TransactionInfo × WalletConfig),
      (process_transactions fl initialBotState q).transaction_history
        = (q.map Prod.fst).drop (q.length - max_history_size) := by
    intro q
    rw [process_transactions_history]
    show List.foldl hist_step [] (q.map Prod.fst) = _
    rw [hist_foldl_eq_drop]
    simp [List.length_map]
  refine ⟨hchar l, ?_, ?_⟩
  · rw [hchar l]
    simp only [List.length_drop, List.length_map]
    omega
  · rw [hchar p]
    simp only [List.length_drop, List.length_map]
    omega

def txC8 : TransactionInfo :=
  { signature := "h", transaction_type := .unknown, source_wallet := "w",
    success := true }

/-- Witness for C8 after 1001 processed transactions with the empty prefix. -/
theorem C8_witness :
    (process_transactions (1/1000) initialBotState
        (List.replicate 1001 (txC8, cfgOpen))).transaction_history
        = ((List.replicate 1001 (txC8, cfgOpen)).map Prod.fst).drop
            ((List.replicate 1001 (txC8, cfgOpen)).length - max_history_size) ∧
    (process_transactions (1/1000) initialBotState
        (List.replicate 1001 (txC8, cfgOpen))).transaction_history.length
        = max_history_size ∧
    (process_transactions (1/1000) initialBotState
        ([] : List (TransactionInfo × WalletConfig))).transaction_history.length
        ≤ max_history_size :=
  C8_history_bound (List.replicate 1001 (txC8, cfgOpen)) [] (1/1000)
    (by rw [List.length_replicate]; norm_num [max_history_size]) List.nil_prefix

/-- Clamping to a nonnegative integer commutes with toNat. -/
theorem toNat_max_zero (x : ℤ) : (max 0 x).toNat = x.toNat := by
  rcases le_total 0 x with h | h
  · rw [max_eq_right h]
  · rw [max_eq_left h]
    omega

/-- Claim C9: for nonnegative limit and offset, get_transaction_history
returns a contiguous infix of the history (hence ordered oldest-to-newest
as stored) of at most limit elements, and an offset at or beyond the
history length yields the empty list rather than an error. -/
theorem C9_history_slice (h : List TransactionInfo) (limit offset : ℤ)
    (hl : 0 ≤ limit) (ho : 0 ≤ offset) :
    (get_transaction_history h limit offset) <:+: h ∧
    (get_transaction_history h limit offset).length ≤ limit.toNat ∧
    ((h.length : ℤ) ≤ offset → get_transaction_history h limit offset = []) := by
  refine ⟨?_, ?_, ?_⟩
  · exact ((h.take _).drop_suffix _).isInfix.trans (h.take_prefix _).isInfix
  · simp only [get_transaction_history, List.length_drop, List.length_take,
      toNat_max_zero]
    omega
  · intro hoff
    simp only [get_transaction_history, toNat_max_zero]
    have hz : ((h.length : ℤ) - offset).toNat = 0 := by omega
    rw [hz, List.take_zero, List.drop_nil]

def txC9 : TransactionInfo :=
  { signature := "p", transaction_type := .sol_transfer, source_wallet := "w",
    success := true }

/-- Witness for C9 on a one-element history with limit 5 and offset 7. -/
theorem C9_witness :
    (get_transaction_history [txC9] 5 7) <:+: [txC9] ∧
    (get_transaction_history [txC9] 5 7).length ≤ (5 : ℤ).toNat ∧
    (((List.length [txC9] : ℤ)) ≤ 7 → get_transaction_history [txC9] 5 7 = []) :=
  C9_history_slice [txC9] 5 7 (by norm_num) (by norm_num)

/-- _process_transaction leaves the statistics unchanged when the
transaction is not eligible. -/
theorem process_transaction_stats_skip (state : BotState)
    (ti : TransactionInfo) (config : WalletConfig) (fl : ℚ)
    (h : should_copy_transaction ti config fl = false) :
    (process_transaction state ti config fl).stats = state.stats := by
  simp [process_transaction, h]

/-- _process_transaction on an eligible transaction bumps the total by one
and exactly one of the success or failure counters by one. -/
theorem process_transaction_stats_copy (state : BotState)
    (ti : TransactionInfo) (config : WalletConfig) (fl : ℚ)
    (h : should_copy_transaction ti config fl = true) :
    (process_transaction state ti config fl).stats.total_transactions_copied
        = state.stats.total_transactions_copied + 1 ∧
    ((process_transaction state ti config fl).stats.successful_copies
          = state.stats.successful_copies + 1 ∧
        (process_transaction state ti config fl).stats.failed_copies
          = state.stats.failed_copies
      ∨ (process_transaction state ti config fl).stats.successful_copies
          = state.stats.successful_copies ∧
        (process_transaction state ti config fl).stats.failed_copies
          = state.stats.failed_copies + 1) := by
  have hns : ¬ should_copy_transaction ti config fl = false := by simp [h]
  simp only [process_transaction]
  rw [if_neg hns]
  cases hc : copy_transaction ti <;>
    cases hty : ti.transaction_type <;>
      rcases ham : ti.amount with _ | a <;>
        simp [hc, hty, ham] <;>
          split_ifs <;> simp

/-- total = successes + failures, the statistics invariant of claim C10. -/
def stats_invariant (s : CopyTradingStats) : Prop :=
  s.total_transactions_copied = s.successful_copies + s.failed_copies

/-- Every pipeline run preserves the statistics invariant. -/
theorem process_transactions_stats_invariant (fl : ℚ)
    (l : List (TransactionInfo × WalletConfig)) (state : BotState)
    (hs : stats_invariant state.stats) :
    stats_invariant (process_transactions fl state l).stats := by
  induction l generalizing state with
  | nil => exact hs
  | cons p rest ih =>
    cases p with
    | mk ti cfg =>
      apply ih
      cases hx : should_copy_transaction ti cfg fl
      · rw [process_transaction_stats_skip _ _ _ _ hx]
        exact hs
      · obtain ⟨h1, h2⟩ := process_transaction_stats_copy state ti cfg fl hx
        unfold stats_invariant at *
        rcases h2 with ⟨hs1, hf1⟩ | ⟨hs1, hf1⟩ <;> omega

/-- Claim C10: each run of _process_transaction on an eligible transaction
increments total_transactions_copied by exactly one and exactly one of
successful_copies or failed_copies by one, and consequently every
statistics state reachable from the zeroed counters satisfies
total_transactions_copied = successful_copies + failed_copies. -/
theorem C10_stats_invariant (ti : TransactionInfo) (config : WalletConfig)
    (fl : ℚ) (state : BotState) (l : List (TransactionInfo × WalletConfig))
    (he : should_copy_transaction ti config fl = true) :
    ((process_transaction state ti config fl).stats.total_transactions_copied
        = state.stats.total_transactions_copied + 1 ∧
      ((process_transaction state ti config fl).stats.successful_copies
            = state.stats.successful_copies + 1 ∧
          (process_transaction state ti config fl).stats.failed_copies
            = state.stats.failed_copies
        ∨ (process_transaction state ti config fl).stats.successful_copies
            = state.stats.successful_copies ∧
          (process_transaction state ti config fl).stats.failed_copies
            = state.stats.failed_copies + 1)) ∧
    stats_invariant (process_transactions fl initialBotState l).stats :=
  ⟨process_transaction_stats_copy state ti config fl he,
   process_transactions_stats_invariant fl l initialBotState rfl⟩

def txC10 : TransactionInfo :=
  { signature := "t", transaction_type := .sol_transfer, source_wallet := "w",
    success := true }

/-- Witness for C10 at a concrete eligible transfer and a two-step run. -/
theorem C10_witness :
    ((process_transaction initialBotState txC10 cfgOpen (1/1000)).stats.total_transactions_copied
        = initialBotState.stats.total_transactions_copied + 1 ∧
      ((process_transaction initialBotState txC10 cfgOpen (1/1000)).stats.successful_copies
            = initialBotState.stats.successful_copies + 1 ∧
          (process_transaction initialBotState txC10 cfgOpen (1/1000)).stats.failed_copies
            = initialBotState.stats.failed_copies
        ∨ (process_transaction initialBotState txC10 cfgOpen (1/1000)).stats.successful_copies
            = initialBotState.stats.successful_copies ∧
          (process_transaction initialBotState txC10 cfgOpen (1/1000)).stats.failed_copies
            = initialBotState.stats.failed_copies + 1)) ∧
    stats_invariant (process_transactions (1/1000) initialBotState
      [(txC10, cfgOpen), (txUnknownC1, cfgOpen)]).stats :=
  C10_stats_invariant txC10 cfgOpen (1/1000) initialBotState
    [(txC10, cfgOpen), (txUnknownC1, cfgOpen)] (by decide)
